import Mathlib

/-!
# Verification of the `rust_algorithms` linked-list containers

Shallow embedding of `src/linked_list/src/algorithm.rs` (singly linked
`KolzoLinkedList<T>`) and `src/double_linked_list/src/algorithm.rs`
(`KolzoDoublyLinkedList<T>`).

Modelling choices, matched line by line against the Rust source:

* A heap node `Box<Node<T>>` is modelled as a pair `(id, value)` where `id`
  is the node's identity (its heap address, abstractly).  The field
  `chain` lists the nodes reachable from `head` by following `next`, in
  order; `head = None` corresponds to `chain = []`.
* The raw pointer `tail : Option<*mut Node<T>>` is modelled as
  `tail : Option Nat`, the identity of the node it points to.
* `length : u64` is modelled as a `Nat` together with explicit wrapping
  arithmetic `u64add1` / `u64sub1` for `+= 1` / `-= 1`.
* `fresh` is an allocation counter: each `Box::new(Node::new(v))` receives
  the next identity.
* `append` dereferences the raw tail pointer (`(*tail_pointer).next = ...`).
  If the tail pointer's node is no longer reachable from `head` the node
  has been freed and the write is undefined behaviour; the model records
  this with the `corrupt` flag (no claim below exercises such a state, but
  reachability must account for it).  Writing through a pointer to a
  mid-chain node drops (frees) that node's old successors, so the chain
  becomes the prefix up to the pointee followed by the new node
  (`linkAfter`).
-/

/-- 2^64, the modulus of Rust's `u64`. -/
def u64Mod : Nat := 18446744073709551616

/-- `self.length += 1` on a `u64`. -/
def u64add1 (n : Nat) : Nat := (n + 1) % u64Mod

/-- `self.length -= 1` on a `u64` (wrapping semantics). -/
def u64sub1 (n : Nat) : Nat := (n + (u64Mod - 1)) % u64Mod

/-- The list handle `KolzoLinkedList<T>` of `src/linked_list/src/algorithm.rs`
(lines 33–41): `head`/the owned node chain is `chain`, the raw tail pointer is
`tail` (identity of its pointee), `length` is the `u64` length field.
`fresh` is the allocator counter and `corrupt` marks undefined behaviour
(a write through a dangling tail pointer). -/
structure KolzoLinkedList (T : Type) where
  chain : List (Nat × T)
  tail : Option Nat
  length : Nat
  fresh : Nat
  corrupt : Bool
deriving DecidableEq

namespace KolzoLinkedList

variable {T : Type}

/-- `KolzoLinkedList::new` (lines 52–58). -/
def new : KolzoLinkedList T :=
  { chain := [], tail := none, length := 0, fresh := 0, corrupt := false }

/-- Effect of `(*tail_pointer).next = Some(new_node)` on the reachable chain:
the pointee `a` keeps its prefix, its old successors are dropped, and the new
node follows it. -/
def linkAfter (a : Nat) (nid : Nat) (v : T) : List (Nat × T) → List (Nat × T)
  | [] => []
  | x :: xs => if x.1 = a then [x, (nid, v)] else x :: linkAfter a nid v xs

/-- `KolzoLinkedList::append` (lines 95–110).  `match self.tail`:
`Some(tail_pointer)` writes the new node as the pointee's `next` (undefined
behaviour if the pointee was freed, i.e. is not in the chain); `None` installs
the new node as `head`.  Then `tail` is set to the new node and
`length += 1`. -/
def append (v : T) (s : KolzoLinkedList T) : KolzoLinkedList T :=
  if s.corrupt then s else
  match s.tail with
  | some a =>
    if (s.chain.map Prod.fst).contains a then
      { chain := linkAfter a s.fresh v s.chain, tail := some s.fresh,
        length := u64add1 s.length, fresh := s.fresh + 1, corrupt := false }
    else
      { s with corrupt := true }
  | none =>
    { chain := [(s.fresh, v)], tail := some s.fresh,
      length := u64add1 s.length, fresh := s.fresh + 1, corrupt := false }

/-- The `while` loop of `KolzoLinkedList::pop` (lines 151–164): walk the chain
looking for the node whose successor is last; detach that successor, point
`tail` at the node, and return the successor's value.  `none` corresponds to
the loop falling through to the final `return None`. -/
def popLoop : List (Nat × T) → Option (List (Nat × T) × Nat × T)
  | [] => none
  | [_] => none
  | n :: m :: rest =>
    if rest.isEmpty then some ([n], n.1, m.2)
    else (popLoop (m :: rest)).map (fun r => (n :: r.1, r.2.1, r.2.2))

/-- `KolzoLinkedList::pop` (lines 135–167): empty list returns `None`;
a single node is taken from `head` with `tail = None` and `length -= 1`;
otherwise the loop detaches the last node, repoints `tail` at the
second-to-last and `length -= 1`. -/
def pop (s : KolzoLinkedList T) : KolzoLinkedList T × Option T :=
  match s.chain with
  | [] => (s, none)
  | [x] =>
    ({ s with chain := [], tail := none, length := u64sub1 s.length }, some x.2)
  | n :: m :: rest =>
    match popLoop (n :: m :: rest) with
    | some r =>
      ({ s with chain := r.1, tail := some r.2.1, length := u64sub1 s.length },
       some r.2.2)
    | none => (s, none)

/-- `KolzoLinkedList::prepend` (lines 185–197): if `head` is `None` the tail
pointer is set to the new node; the new node's `next` becomes the old `head`,
the new node becomes `head`, `length += 1`. -/
def prepend (v : T) (s : KolzoLinkedList T) : KolzoLinkedList T :=
  { chain := (s.fresh, v) :: s.chain,
    tail := if s.chain.isEmpty then some s.fresh else s.tail,
    length := u64add1 s.length, fresh := s.fresh + 1, corrupt := s.corrupt }

/-- `KolzoLinkedList::pop_first` (lines 221–233): take `head`; `head` becomes
its `next`; if that is `None`, `tail` is cleared; the detached value is
returned.  Note: the source never touches `self.length` here. -/
def pop_first (s : KolzoLinkedList T) : KolzoLinkedList T × Option T :=
  match s.chain with
  | [] => (s, none)
  | x :: rest =>
    ({ s with chain := rest, tail := if rest.isEmpty then none else s.tail },
     some x.2)

/-- The traversal loop of `KolzoLinkedList::get` (lines 269–277): advance a
counter along the chain and return the data once the counter hits the
index. -/
def getLoop (i : Nat) : List (Nat × T) → Option T
  | [] => none
  | x :: xs => if i = 0 then some x.2 else getLoop (i - 1) xs

/-- `KolzoLinkedList::get` (lines 264–280): a negative index or
`index as u64 >= self.length` returns `None`; otherwise traverse. -/
def get (i : Int) (s : KolzoLinkedList T) : Option T :=
  if i < 0 ∨ s.length ≤ i.toNat then none
  else getLoop i.toNat s.chain

/-- The traversal loop of `KolzoLinkedList::set` (lines 320–327): at the
index, `std::mem::replace` swaps the new value in (the node keeps its
identity) and the old value is returned. -/
def setLoop (i : Nat) (v : T) : List (Nat × T) → List (Nat × T) × Option T
  | [] => ([], none)
  | x :: xs =>
    if i = 0 then ((x.1, v) :: xs, some x.2)
    else
      let r := setLoop (i - 1) v xs
      (x :: r.1, r.2)

/-- `KolzoLinkedList::set` (lines 312–329): same bounds policy as `get`,
then the loop; falling off the chain returns `None`. -/
def set (i : Int) (v : T) (s : KolzoLinkedList T) : KolzoLinkedList T × Option T :=
  if i < 0 ∨ s.length ≤ i.toNat then (s, none)
  else
    let r := setLoop i.toNat v s.chain
    ({ s with chain := r.1 }, r.2)

/-- The traversal/splice part of `KolzoLinkedList::insert` (lines 379–395):
after `k` advances (the `while counter < index - 1` loop), if the current
slot holds a node, a new node is spliced between it and its successor.
`none` corresponds to the loop's early `return` (or the final `if let`
failing), a no-op. -/
def insertLoop (k : Nat) (nid : Nat) (v : T) :
    List (Nat × T) → Option (List (Nat × T))
  | [] => none
  | x :: xs =>
    if k = 0 then some (x :: (nid, v) :: xs)
    else (insertLoop (k - 1) nid v xs).map (fun c => x :: c)

/-- `KolzoLinkedList::insert` (lines 364–396): `index < 0` or
`index as u64 >= self.length` returns immediately; `index == 0` delegates to
`prepend`; `index as u64 == self.length` delegates to `append` (unreachable
after the first guard); otherwise the splice loop runs.  Note: the splice
branch never updates `self.length` or `self.tail` in the source. -/
def insert (i : Int) (v : T) (s : KolzoLinkedList T) : KolzoLinkedList T :=
  if i < 0 ∨ s.length ≤ i.toNat then s
  else if i = 0 then prepend v s
  else if i.toNat = s.length then append v s
  else
    match insertLoop (i.toNat - 1) s.fresh v s.chain with
    | some c => { s with chain := c, fresh := s.fresh + 1 }
    | none => s

/-- The traversal part of `KolzoLinkedList::remove` (lines 442–466): after
`k` advances, at the predecessor node `x`:
if `isLast` (`index as u64 == self.length - 1`) and `x` has a successor, the
source executes `Some(last_node).take()` — a statement with no effect on the
chain — then repoints `tail` at `x` and decrements; if `isLast` and `x` has
no successor, nothing but the decrement happens; otherwise
(`node.next.take()` / relink) the successor of `x` is spliced out.  The
result carries the new chain and the tail reassignment if any; `none` is the
loop's early `return` (no decrement). -/
def removeLoop (k : Nat) (isLast : Bool) :
    List (Nat × T) → Option (List (Nat × T) × Option Nat)
  | [] => none
  | x :: xs =>
    if k = 0 then
      if isLast then
        if xs.isEmpty then some (x :: xs, none)
        else some (x :: xs, some x.1)
      else some (x :: xs.tail, none)
    else (removeLoop (k - 1) isLast xs).map (fun r => (x :: r.1, r.2))

/-- `KolzoLinkedList::remove` (lines 431–467): `index < 0` or
`index as u64 >= self.length` is a no-op; `index == 0` calls `pop_first` and
then `self.length -= 1`; otherwise the traversal runs and on success
`self.length -= 1`. -/
def remove (i : Int) (s : KolzoLinkedList T) : KolzoLinkedList T :=
  if i < 0 ∨ s.length ≤ i.toNat then s
  else if i = 0 then
    let r := pop_first s
    { r.1 with length := u64sub1 r.1.length }
  else
    match removeLoop (i.toNat - 1) (decide (i.toNat = s.length - 1)) s.chain with
    | some r =>
      { s with chain := r.1,
               tail := match r.2 with | some a => some a | none => s.tail,
               length := u64sub1 s.length }
    | none => s

/-- `KolzoLinkedList::reverse` (lines 493–505): the loop re-links every
node's `next` to its predecessor and installs the accumulator as `head`.
Nodes keep their heap addresses, and neither `self.tail` nor `self.length`
is touched by the source. -/
def reverse (s : KolzoLinkedList T) : KolzoLinkedList T :=
  { s with chain := s.chain.reverse }

end KolzoLinkedList

/-- A node of the doubly linked list
(`src/double_linked_list/src/algorithm.rs`, lines 1–10): identity, data and
the `previous` back-reference (modelled as the identity of the predecessor,
since the source's `Box::from_raw` aliasing cannot own in the model). -/
structure DNode (T : Type) where
  id : Nat
  data : T
  prev : Option Nat
deriving DecidableEq

/-- The list handle `KolzoDoublyLinkedList<T>`
(`src/double_linked_list/src/algorithm.rs`, lines 22–31). -/
structure KolzoDoublyLinkedList (T : Type) where
  chain : List (DNode T)
  tail : Option Nat
  length : Nat
  fresh : Nat
deriving DecidableEq

namespace KolzoDoublyLinkedList

variable {T : Type}

/-- `KolzoDoublyLinkedList::new` (lines 42–48). -/
def dnew : KolzoDoublyLinkedList T :=
  { chain := [], tail := none, length := 0, fresh := 0 }

/-- Effect of `(*current).next = Some(...)` in the doubly linked `append`:
the new node follows the pointee, its `previous` set to the pointee. -/
def dlinkAfter (a : Nat) (nd : DNode T) : List (DNode T) → List (DNode T)
  | [] => []
  | x :: xs => if x.id = a then [x, nd] else x :: dlinkAfter a nd xs

/-- `KolzoDoublyLinkedList::append` (lines 94–112): empty list installs the
node as `head` and `tail`; otherwise, if `tail` is present, the node is
linked after the pointee with its `previous` set to it and `tail` moves to
the node; `length += 1` in every case.  (Only `append` ever mutates this
list — every other method is an empty stub — so the tail pointer always
references the final chain node here.) -/
def dappend (v : T) (s : KolzoDoublyLinkedList T) : KolzoDoublyLinkedList T :=
  if s.chain.isEmpty then
    { chain := [⟨s.fresh, v, none⟩], tail := some s.fresh,
      length := u64add1 s.length, fresh := s.fresh + 1 }
  else
    match s.tail with
    | some a =>
      { chain := dlinkAfter a ⟨s.fresh, v, some a⟩ s.chain, tail := some s.fresh,
        length := u64add1 s.length, fresh := s.fresh + 1 }
    | none => { s with length := u64add1 s.length }

/-- `KolzoDoublyLinkedList::pop` (lines 114–116): the body is the comment
`// Some code` — the method takes a value, returns `()` and performs no
mutation. -/
def dpop (s : KolzoDoublyLinkedList T) (_v : T) : KolzoDoublyLinkedList T := s

end KolzoDoublyLinkedList

namespace KolzoLinkedList

/-- The public operations of the singly linked list, for reachability. -/
inductive Op (T : Type) where
  | append (v : T)
  | prepend (v : T)
  | pop
  | popFirst
  | getAt (i : Int)
  | setAt (i : Int) (v : T)
  | insertAt (i : Int) (v : T)
  | removeAt (i : Int)
  | reverse

/-- State transition of one public operation (`get` reads only). -/
def applyOp : Op T → KolzoLinkedList T → KolzoLinkedList T
  | .append v, s => append v s
  | .prepend v, s => prepend v s
  | .pop, s => (pop s).1
  | .popFirst, s => (pop_first s).1
  | .getAt _, s => s
  | .setAt i v, s => (set i v s).1
  | .insertAt i v, s => insert i v s
  | .removeAt i, s => remove i s
  | .reverse, s => reverse s

/-- The state reached from `new` by a sequence of public operations. -/
def run (ops : List (Op T)) : KolzoLinkedList T :=
  ops.foldl (fun s o => applyOp o s) new

end KolzoLinkedList

open KolzoLinkedList KolzoDoublyLinkedList

/-- Sanity: three appends build the chain 1, 2, 3 with length 3. -/
example :
    (append 3 (append 2 (append 1 (new : KolzoLinkedList Nat)))).chain.map
      Prod.snd = [1, 2, 3] ∧
    (append 3 (append 2 (append 1 (new : KolzoLinkedList Nat)))).length = 3 := by
  decide

/-- C1: the claim — "for every list reachable by a sequence of public
operations, the length field equals the number of nodes reachable from
head" — is false: after `new; append(1); pop_first()` the length field is
still 1 while no node is reachable, because `pop_first` never decrements
`self.length`. -/
theorem C1_length_invariant_refuted :
    ¬ ∀ ops : List (Op Nat), (run ops).length = (run ops).chain.length :=
  fun h => absurd (h [Op.append 1, Op.popFirst]) (by decide)

/-- C2: on the one-element list `[1]`, `pop_first` returns `Some(1)`,
detaches the node (head becomes absent), clears the tail pointer — but the
length field stays 1, where the claim demands it be decremented to 0. -/
theorem C2_pop_first_keeps_length :
    (pop_first (append 1 (new : KolzoLinkedList Nat))).2 = some 1 ∧
    (pop_first (append 1 (new : KolzoLinkedList Nat))).1.chain = [] ∧
    (pop_first (append 1 (new : KolzoLinkedList Nat))).1.tail = none ∧
    (pop_first (append 1 (new : KolzoLinkedList Nat))).1.length = 1 := by
  decide

/-- C3: on the list `[10, 20]`, `remove(1)` decrements the length to 1 and
repoints the tail at the first node, but the source's
`Some(last_node).take()` has no effect, so the predecessor's `next` still
links the node and the reachable value sequence is still `[10, 20]` — the
claim demands it become `[10]`. -/
theorem C3_remove_last_leaves_node_linked :
    (remove 1 (append 20 (append 10 (new : KolzoLinkedList Nat)))).chain.map
      Prod.snd = [10, 20] ∧
    (remove 1 (append 20 (append 10 (new : KolzoLinkedList Nat)))).length = 1 ∧
    (remove 1 (append 20 (append 10 (new : KolzoLinkedList Nat)))).tail =
      some 0 := by
  decide

/-- C4: on the list `[10, 20, 30]` (count 3), `insert(1, 99)` splices 99
between positions 0 and 1 as the claim says, but the splice branch of the
source never executes `self.length += 1`, so the count stays 3 instead of
becoming 4. -/
theorem C4_insert_mid_keeps_length :
    (insert 1 99
        (append 30 (append 20 (append 10
          (new : KolzoLinkedList Nat))))).chain.map Prod.snd =
      [10, 99, 20, 30] ∧
    (insert 1 99
        (append 30 (append 20 (append 10
          (new : KolzoLinkedList Nat))))).length = 3 := by
  decide

/-- C5: `insert`'s guard rejects `index as u64 >= self.length`, so
`insert(0, 10)` on the empty list is a no-op while `prepend(10)` builds
`[10]`, and `insert(1, 5)` on the one-element list `[1]` (index = len) is a
no-op while `append(5)` builds `[1, 5]` — refuting both equivalences of the
claim. -/
theorem C5_insert_zero_and_len_are_noops :
    insert 0 10 (new : KolzoLinkedList Nat) = new ∧
    (prepend 10 (new : KolzoLinkedList Nat)).chain.map Prod.snd = [10] ∧
    insert 1 5 (append 1 (new : KolzoLinkedList Nat)) =
      append 1 (new : KolzoLinkedList Nat) ∧
    (append 5 (append 1 (new : KolzoLinkedList Nat))).chain.map Prod.snd =
      [1, 5] := by
  decide

/-- C6: build `[1, 2]` (node ids 0 and 1) and reverse.  The chain becomes
`[(1, 2), (0, 1)]`, so the unique node with absent `next` is node 0 — the
originally first node — but the tail pointer still references node 1,
because `reverse` never assigns `self.tail`. -/
theorem C6_reverse_keeps_stale_tail :
    (reverse (append 2 (append 1 (new : KolzoLinkedList Nat)))).chain =
      [(1, 2), (0, 1)] ∧
    (reverse (append 2 (append 1 (new : KolzoLinkedList Nat)))).tail =
      some 1 := by
  decide

/-- C7: the doubly linked list `[1, 2]` is unchanged by `pop` — the source's
`pop` is an unimplemented stub (`// Some code`) that takes a value, returns
`()` and removes nothing, where the claim demands the last node be removed
and its value returned. -/
theorem C7_doubly_pop_is_noop :
    (dappend 2 (dappend 1 (dnew : KolzoDoublyLinkedList Nat))).chain.map
      DNode.data = [1, 2] ∧
    dpop (dappend 2 (dappend 1 (dnew : KolzoDoublyLinkedList Nat))) 0 =
      dappend 2 (dappend 1 (dnew : KolzoDoublyLinkedList Nat)) := by
  decide

/-- C8: for every singly linked list and every out-of-range index (negative,
or at least the length field), `get` returns `none` and `set` returns `none`
leaving the whole list state — length and all elements — unchanged. -/
theorem C8_out_of_range_get_set {T : Type} (s : KolzoLinkedList T) (i : Int)
    (v : T) (h : i < 0 ∨ s.length ≤ i.toNat) :
    get i s = none ∧ set i v s = (s, none) := by
  constructor
  · unfold KolzoLinkedList.get
    rw [if_pos h]
  · unfold KolzoLinkedList.set
    rw [if_pos h]

/-- Witness for C8 at the list `[7]` and index `-1`. -/
theorem C8_out_of_range_get_set_witness :
    ((-1 : Int) < 0 ∨
      (append 7 (new : KolzoLinkedList Nat)).length ≤ (-1 : Int).toNat) ∧
    (get (-1) (append 7 (new : KolzoLinkedList Nat)) = none ∧
      set (-1) 5 (append 7 (new : KolzoLinkedList Nat)) =
        (append 7 (new : KolzoLinkedList Nat), none)) :=
  ⟨Or.inl (by decide),
    C8_out_of_range_get_set (append 7 new) (-1) 5 (Or.inl (by decide))⟩

/-- C9: `reverse` leaves the length field unchanged: the source's loop only
re-links `next` references and reinstalls `head`, never touching
`self.length`. -/
theorem C9_reverse_preserves_length {T : Type} (s : KolzoLinkedList T) :
    (reverse s).length = s.length := rfl

/-- Behaviour of the `set` traversal loop at an in-range position: it
returns the old value at position `k`, preserves the chain length, stores
`v` at position `k`, and leaves every other position untouched. -/
theorem setLoop_spec {T : Type} (v : T) :
    ∀ (l : List (Nat × T)) (k : Nat), k < l.length →
      (setLoop k v l).2 = (l.get? k).map Prod.snd ∧
      (setLoop k v l).1.length = l.length ∧
      ((setLoop k v l).1.get? k).map Prod.snd = some v ∧
      ∀ j : Nat, j ≠ k → (setLoop k v l).1.get? j = l.get? j
  | [], k => by
    intro hk
    simp at hk
  | x :: xs, 0 => by
    intro _
    refine ⟨by simp [setLoop], by simp [setLoop], by simp [setLoop], ?_⟩
    intro j hj
    match j with
    | 0 => exact absurd rfl hj
    | j + 1 => simp [setLoop]
  | x :: xs, k + 1 => by
    intro hk
    obtain ⟨h1, h2, h3, h4⟩ :=
      setLoop_spec v xs k (Nat.lt_of_succ_lt_succ hk)
    refine ⟨by simpa [setLoop] using h1, by simpa [setLoop] using h2,
      by simpa [setLoop] using h3, ?_⟩
    intro j hj
    match j with
    | 0 => simp [setLoop]
    | j + 1 =>
      have := h4 j (fun e => hj (by rw [e]))
      simpa [setLoop] using this

/-- C10: for every well-formed singly linked list (length field = number of
chain nodes) and every in-range index `i`, `set i v` keeps the length field
and the chain length, returns the value previously stored at position `i`,
stores `v` at position `i`, and leaves every node at a position `j ≠ i`
exactly as it was. -/
theorem C10_set_in_range_frame {T : Type} (s : KolzoLinkedList T) (i : Int)
    (v : T) (hwf : s.length = s.chain.length) (h0 : 0 ≤ i)
    (hi : i.toNat < s.length) :
    (set i v s).1.length = s.length ∧
    (set i v s).2 = (s.chain.get? i.toNat).map Prod.snd ∧
    (set i v s).1.chain.length = s.chain.length ∧
    ((set i v s).1.chain.get? i.toNat).map Prod.snd = some v ∧
    ∀ j : Nat, j ≠ i.toNat → (set i v s).1.chain.get? j = s.chain.get? j := by
  have hcond : ¬ (i < 0 ∨ s.length ≤ i.toNat) := by
    push_neg
    exact ⟨by omega, by omega⟩
  obtain ⟨h1, h2, h3, h4⟩ := setLoop_spec v s.chain i.toNat (hwf ▸ hi)
  unfold KolzoLinkedList.set
  rw [if_neg hcond]
  exact ⟨rfl, h1, h2, h3, h4⟩

/-- Witness for C10 at the list `[10, 20]`, index `1`, new value `25`. -/
theorem C10_set_in_range_frame_witness :
    ((append 20 (append 10 (new : KolzoLinkedList Nat))).length =
        (append 20 (append 10 (new : KolzoLinkedList Nat))).chain.length ∧
      (0 : Int) ≤ 1 ∧
      (1 : Int).toNat <
        (append 20 (append 10 (new : KolzoLinkedList Nat))).length) ∧
    ((set 1 25 (append 20 (append 10 (new : KolzoLinkedList Nat)))).1.length =
        (append 20 (append 10 (new : KolzoLinkedList Nat))).length ∧
      (set 1 25 (append 20 (append 10 (new : KolzoLinkedList Nat)))).2 =
        ((append 20 (append 10
          (new : KolzoLinkedList Nat))).chain.get? (1 : Int).toNat).map
            Prod.snd ∧
      (set 1 25
          (append 20 (append 10
            (new : KolzoLinkedList Nat)))).1.chain.length =
        (append 20 (append 10 (new : KolzoLinkedList Nat))).chain.length ∧
      ((set 1 25
          (append 20 (append 10
            (new : KolzoLinkedList Nat)))).1.chain.get? (1 : Int).toNat).map
            Prod.snd = some 25 ∧
      ∀ j : Nat, j ≠ (1 : Int).toNat →
        (set 1 25
          (append 20 (append 10
            (new : KolzoLinkedList Nat)))).1.chain.get? j =
          (append 20 (append 10 (new : KolzoLinkedList Nat))).chain.get? j) :=
  ⟨⟨by decide, by decide, by decide⟩,
    C10_set_in_range_frame (append 20 (append 10 new)) 1 25 (by decide)
      (by decide) (by decide)⟩
